import Mathlib

/-!
Shallow embedding of `StorageView` from `src/include/ctranslate2/storage_view.h`
(CTranslate2). The header contains the class declaration, its data members and
the full bodies of the template members (`data`, `index`, `at`, `assign(T*,Shape)`,
`fill`, `copy_from(T*,size,Device)`) plus the shaped constructors. The bodies of
the non-template members (`resize`, `reshape`, `clear`, `release`, `reserve`,
`grow`, `shrink`, the static `size`/`strides` helpers) live in `storage_view.cc`,
which is not among the sources; those are modelled from the spec and marked so.

Modelling conventions:
  * An element buffer is a `List Int` of values together with a `Nat` address
    that stands for the raw pointer (`0` models `nullptr`).  Aliasing is tracked
    through the address, values through the list.
  * `assert(...)` preconditions become `Option`-returning operations: `none`
    models an assertion failure (a rejected call), `some` a call that passes.
  * Allocation and deallocation are recorded as an explicit effect trace so that
    "reallocates" / "never frees" claims are statable.  The 64-byte alignment of
    an owned allocation concerns the byte-level allocator and does not change
    the element capacity, which is what `_allocated_size` counts.
  * The `#ifdef WITH_CUDA` guard around the cross-device branch of `copy_from`
    (storage_view.h lines 186-193) is taken as enabled, so that the cross-device
    copy path described by the spec exists; `Device` has the two tags the header
    names, `Device::CPU` and `Device::CUDA`.
-/

namespace ctranslate2

/-- Device tag. `types.h` is not among the sources; the header itself names
`Device::CPU` and `Device::CUDA` (lines 50, 188-191), which are the two tags
modelled here. -/
inductive Device where
  | CPU : Device
  | CUDA : Device
deriving DecidableEq, Repr

/-- Element type tag. Modelled from the spec: the Type Tag Registry of
`types.h` is not among the sources; the header names `DataType::DT_FLOAT`
(line 204). A second tag is enough to express type-tag mismatch. -/
inductive DataType where
  | DT_FLOAT : DataType
  | DT_INT32 : DataType
deriving DecidableEq, Repr

/-- Resource effect of a mutator: freeing or allocating a raw buffer,
identified by its address (and, for an allocation, its element capacity). -/
inductive Effect where
  | free : Nat → Effect
  | alloc : Nat → Nat → Effect
deriving DecidableEq, Repr

/-- Which primitive-backend copy path a `copy_from` call dispatches to:
`primitives<D>::copy` on a single device, or
`cross_device_primitives<Src, Dst>::copy` between two devices. -/
inductive CopyRoute where
  | sameDevice : Device → CopyRoute
  | crossDevice : Device → Device → CopyRoute
deriving DecidableEq, Repr

/-- The data members of `StorageView` (storage_view.h lines 204-211).
`_data` is the buffer address and `_buf` the element values stored there. -/
structure StorageView where
  _dtype : DataType := DataType.DT_FLOAT
  _device : Device := Device.CPU
  _data : Nat := 0
  _buf : List Int := []
  _own_data : Bool := true
  _allocated_size : Nat := 0
  _size : Nat := 0
  _shape : List Nat := []
  _strides : List Nat := []
deriving DecidableEq, Repr

/-- Modelled from the spec: the static `StorageView::size(const Shape&)` of
`storage_view.cc` (not among the sources). `logical_size` is the product of the
shape's dimensions, and rank 0 is reserved for "empty/uninitialized": `clear()`
sets `logical_size = 0` and `shape = {}` while the invariant
`logical_size == product(shape)` keeps holding, so the empty shape has size 0. -/
def shapeSize (shape : List Nat) : Nat :=
  if shape.isEmpty then 0 else shape.foldl (· * ·) 1

/-- Modelled from the spec: the static `StorageView::stride(const Shape&, dim)`
of `storage_view.cc` (not among the sources); row-major:
`stride[i] = product(shape[i+1..end])`. -/
def strideOfShape (shape : List Nat) (dim : Nat) : Nat :=
  (shape.drop (dim + 1)).foldl (· * ·) 1

/-- Modelled from the spec: the static `StorageView::strides(const Shape&)` of
`storage_view.cc` (not among the sources); one row-major stride per dimension. -/
def stridesOf (shape : List Nat) : List Nat :=
  (List.range shape.length).map (strideOfShape shape)

/-- Contents of a freshly allocated buffer of `n` elements: the allocator does
not initialize memory, so the values are an arbitrary parameter `f`, truncated
or padded to the allocation's length. -/
def mkBuf (n : Nat) (f : List Int) : List Int :=
  (List.range n).map (fun i => f.getD i 0)

/-- Effect of `primitives<D>::copy(src, dst, n)` on the destination buffer:
the first `n` elements are overwritten with the source values, the rest of the
allocation is untouched. -/
def writeN (buf src : List Int) (n : Nat) : List Int :=
  (List.range buf.length).map (fun i => if i < n then src.getD i 0 else buf.getD i 0)

namespace StorageView

/-- `size()` accessor. -/
def size (sv : StorageView) : Nat := sv._size

/-- `rank()` accessor. -/
def rank (sv : StorageView) : Nat := sv._shape.length

/-- Modelled from the spec: `dim(ssize_t)` of `storage_view.cc` (not among the
sources); a negative index is counted from the end. -/
def dimAt (sv : StorageView) (d : Int) : Nat :=
  let i : Int := if d < 0 then (sv._shape.length : Int) + d else d
  sv._shape.getD i.toNat 0

/-- Modelled from the spec: `stride(ssize_t)` of `storage_view.cc` (not among
the sources); a negative index is counted from the end. -/
def strideAt (sv : StorageView) (d : Int) : Nat :=
  let i : Int := if d < 0 then (sv._strides.length : Int) + d else d
  sv._strides.getD i.toNat 0

/-- Modelled from the spec: `clear()` of `storage_view.cc` (not among the
sources); sets `logical_size = 0` and `shape = {}` without releasing the
buffer (capacity retained for reuse). -/
def clear (sv : StorageView) : StorageView :=
  { sv with _size := 0, _shape := [], _strides := [] }

/-- Modelled from the spec: `release()` of `storage_view.cc` (not among the
sources); frees an owned buffer (no-op if borrowed) and resets
capacity/size/shape to empty. The returned trace records the free. -/
def release (sv : StorageView) : StorageView × List Effect :=
  ({ sv with _data := 0, _buf := [], _allocated_size := 0,
             _size := 0, _shape := [], _strides := [] },
   if sv._own_data ∧ sv._data ≠ 0 then [Effect.free sv._data] else [])

/-- Modelled from the spec: the destructor of `storage_view.cc` (not among the
sources); releases owned memory, no-op for borrowed memory. Only the effect
trace is of interest. -/
def destroy (sv : StorageView) : List Effect :=
  if sv._own_data ∧ sv._data ≠ 0 then [Effect.free sv._data] else []

/-- Modelled from the spec: `reserve(size)` of `storage_view.cc` (not among the
sources); ensures `allocated_capacity >= size` by reallocating if needed,
discarding existing contents (the fresh buffer's values are the unspecified
parameter `fresh`). `addr` is the address returned by the allocator. -/
def reserve (sv : StorageView) (n : Nat) (addr : Nat) (fresh : List Int) :
    StorageView × List Effect :=
  if n ≤ sv._allocated_size then (sv, [])
  else
    ({ sv with _data := addr, _buf := mkBuf n fresh, _own_data := true,
               _allocated_size := n },
     (if sv._own_data ∧ sv._data ≠ 0 then [Effect.free sv._data] else [])
       ++ [Effect.alloc addr n])

/-- Modelled from the spec: `reshape(new_shape)` of `storage_view.cc` (not
among the sources); requires `product(new_shape) == logical_size` (rejected
otherwise) and recomputes strides only. -/
def reshape (sv : StorageView) (S : List Nat) : Option StorageView :=
  if shapeSize S = sv._size then
    some { sv with _shape := S, _strides := stridesOf S }
  else none

/-- Modelled from the spec: `resize(new_shape)` of `storage_view.cc` (not among
the sources); sets `logical_size = product(new_shape)`; reallocates an owned
buffer of exactly the new size when it exceeds capacity (prior contents not
preserved), otherwise reuses the buffer and only updates shape/strides. -/
def resize (sv : StorageView) (S : List Nat) (addr : Nat) (fresh : List Int) :
    StorageView × List Effect :=
  let n := shapeSize S
  let r := if sv._allocated_size < n then reserve sv n addr fresh else (sv, [])
  ({ r.1 with _size := n, _shape := S, _strides := stridesOf S }, r.2)

/-- Modelled from the spec: `resize(dim, new_size)` of `storage_view.cc` (not
among the sources); rebuilds the shape with one dimension replaced, then
resizes. -/
def resizeDim (sv : StorageView) (d : Nat) (n : Nat) (addr : Nat) (fresh : List Int) :
    StorageView × List Effect :=
  resize sv (sv._shape.set d n) addr fresh

/-- Modelled from the spec: `grow(dim, size)` of `storage_view.cc` (not among
the sources); adds `k` to one dimension and resizes. -/
def grow (sv : StorageView) (d : Nat) (k : Nat) (addr : Nat) (fresh : List Int) :
    StorageView × List Effect :=
  resizeDim sv d (sv._shape.getD d 0 + k) addr fresh

/-- Modelled from the spec: `shrink(dim, size)` of `storage_view.cc` (not among
the sources); subtracts `k` from one dimension and resizes. -/
def shrink (sv : StorageView) (d : Nat) (k : Nat) (addr : Nat) (fresh : List Int) :
    StorageView × List Effect :=
  resizeDim sv d (sv._shape.getD d 0 - k) addr fresh

/-- `data<T>()` (storage_view.h lines 107-117): asserts the caller's type tag
matches `_dtype` and returns the raw buffer pointer. -/
def dataOp (sv : StorageView) (t : DataType) : Option Nat :=
  if t = sv._dtype then some sv._data else none

/-- The flat offset loop of `index<T>` (storage_view.h lines 127-129):
`offset += indices[i] * _strides[i]` for `i` in `[0, indices.size())`. -/
def indexOffset (strides indices : List Nat) : Nat :=
  (List.range indices.length).foldl
    (fun off i => off + indices.getD i 0 * strides.getD i 0) 0

/-- `index<T>(indices)` (storage_view.h lines 124-132): asserts the type tag,
computes the flat offset, asserts `offset < _size`, and returns the pointer
`data<T>() + offset` (modelled by the offset). -/
def indexOp (sv : StorageView) (t : DataType) (indices : List Nat) : Option Nat :=
  if t = sv._dtype ∧ indexOffset sv._strides indices < sv._size then
    some (indexOffset sv._strides indices)
  else none

/-- Value of the buffer at flat element offset `k` (a host pointer read
`data<T>()[k]`). -/
def atFlat (sv : StorageView) (k : Nat) : Int :=
  sv._buf.getD k 0

/-- `at<T>(indices)` (storage_view.h lines 145-153): `index<T>(indices)[0]`,
the element value at the computed flat offset. -/
def atIndices (sv : StorageView) (t : DataType) (indices : List Nat) : Option Int :=
  (indexOp sv t indices).map (fun off => atFlat sv off)

/-- `assign(T* data, const Shape& shape)` (storage_view.h lines 162-171):
asserts the type tag, releases any previously owned buffer, takes the external
pointer without copying (`_own_data = false`), sets capacity and size to the
shape's product, and reshapes. `p` is the external pointer's address and `ext`
the values it points to. -/
def assignPtr (sv : StorageView) (t : DataType) (p : Nat) (ext : List Int)
    (S : List Nat) : Option (StorageView × List Effect) :=
  if t = sv._dtype then
    let r := release sv
    let n := shapeSize S
    (reshape { r.1 with _data := p, _buf := ext, _own_data := false,
                        _allocated_size := n, _size := n } S).map
      (fun sv2 => (sv2, r.2))
  else none

/-- `fill(value)` (storage_view.h lines 173-178): asserts the type tag and
dispatches `primitives<D>::fill(data<T>(), value, _size)`, writing `value` to
the first `_size` elements. -/
def fill (sv : StorageView) (t : DataType) (v : Int) : Option StorageView :=
  if t = sv._dtype then
    some { sv with _buf := writeN sv._buf (List.replicate sv._size v) sv._size }
  else none

/-- `copy_from(const T* data, size_t size, Device device)` (storage_view.h
lines 182-198): asserts the type tag and `size == _size`; with `WITH_CUDA`
enabled, a source device differing from `_device` routes through
`cross_device_primitives` (`<CUDA,CPU>` when the source is CUDA, else
`<CPU,CUDA>`), and an equal source device routes through
`primitives<D>::copy` dispatched on that device. -/
def copy_from (sv : StorageView) (t : DataType) (src : List Int) (cnt : Nat)
    (dev : Device) : Option (StorageView × CopyRoute) :=
  if t = sv._dtype ∧ cnt = sv._size then
    let route :=
      if dev ≠ sv._device then
        if dev = Device.CUDA then CopyRoute.crossDevice Device.CUDA Device.CPU
        else CopyRoute.crossDevice Device.CPU Device.CUDA
      else CopyRoute.sameDevice dev
    some ({ sv with _buf := writeN sv._buf src cnt }, route)
  else none

/-- Modelled from the spec: `operator=`/`assign` with a copy source is
equivalent to `deep_copy` (`storage_view.cc` not among the sources): resize to
the source's shape, then copy all of its elements into the (owned) buffer. -/
def copyAssign (sv other : StorageView) (addr : Nat) (fresh : List Int) :
    StorageView × List Effect :=
  let r := resize sv other._shape addr fresh
  ({ r.1 with _buf := writeN r.1._buf other._buf other._size }, r.2)

/-- The shaped-from-`std::vector` constructor (storage_view.h lines 44-51):
default members, then `resize(shape)`, then
`copy_from(init.data(), init.size(), Device::CPU)` — the source device is
always `Device::CPU`, whatever `device` the object is constructed on. -/
def fromVector (S : List Nat) (init : List Int) (t : DataType) (dev : Device)
    (addr : Nat) (fresh : List Int) : Option (StorageView × CopyRoute) :=
  let sv0 : StorageView :=
    { _dtype := t, _device := dev, _data := 0, _buf := [], _own_data := true,
      _allocated_size := 0, _size := 0, _shape := [], _strides := [] }
  let r := resize sv0 S addr fresh
  copy_from r.1 t init init.length Device.CPU

/-- The two invariants of the data model: `logical_size == product(shape)` and
`allocated_capacity >= logical_size`. -/
def wf (sv : StorageView) : Prop :=
  sv._size = shapeSize sv._shape ∧ sv._size ≤ sv._allocated_size

instance (sv : StorageView) : Decidable (wf sv) := by
  unfold wf; infer_instance

/-- `wf` on the result of an `Option`-returning mutator (vacuous on a rejected
call). -/
def wfOpt : Option StorageView → Prop
  | none => True
  | some sv => wf sv

/-- `wf` on the result of an `Option`-returning mutator that also produces an
effect trace. -/
def wfOptE : Option (StorageView × List Effect) → Prop
  | none => True
  | some (sv, _) => wf sv

end StorageView

end ctranslate2

namespace ctranslate2

namespace StorageView

lemma wf_resize (sv : StorageView) (S : List Nat) (addr : Nat) (fresh : List Int) :
    wf (sv.resize S addr fresh).1 := by
  unfold wf resize reserve
  by_cases h : sv._allocated_size < shapeSize S
  · simp [h, Nat.not_le.mpr h]
  · simp [h]
    omega

lemma wf_reshape (sv sv2 : StorageView) (S : List Nat) (hwf : wf sv)
    (h : sv.reshape S = some sv2) : wf sv2 := by
  unfold reshape at h
  split at h
  · next hg =>
    cases h
    exact ⟨hg.symm, hwf.2⟩
  · cases h

lemma wf_clear (sv : StorageView) : wf sv.clear := by
  simp [wf, clear, shapeSize]

lemma wf_release (sv : StorageView) : wf sv.release.1 := by
  simp [wf, release, shapeSize]

lemma wf_reserve (sv : StorageView) (n addr : Nat) (fresh : List Int) (hwf : wf sv) :
    wf (sv.reserve n addr fresh).1 := by
  unfold wf reserve
  split
  · exact hwf
  · next h =>
    dsimp only
    exact ⟨hwf.1, by have := hwf.2; omega⟩

lemma wf_assignPtr (sv sv2 : StorageView) (t : DataType) (p : Nat) (ext : List Int)
    (S : List Nat) (eff : List Effect) (h : sv.assignPtr t p ext S = some (sv2, eff)) :
    wf sv2 := by
  unfold assignPtr release reshape at h
  by_cases ht : t = sv._dtype
  · simp [ht] at h
    obtain ⟨h1, h2⟩ := h
    subst h1
    exact ⟨rfl, Nat.le_refl _⟩
  · simp [ht] at h

lemma wf_copyAssign (sv other : StorageView) (addr : Nat) (fresh : List Int) :
    wf (sv.copyAssign other addr fresh).1 := by
  have h := wf_resize sv other._shape addr fresh
  unfold wf copyAssign
  unfold wf at h
  simpa using h

end StorageView

end ctranslate2

namespace ctranslate2

open StorageView

/-- C1: For every StorageView and every mutating operation (resize,
resize(dim,size), grow, shrink, reshape, clear, release, reserve, assign,
copy assignment), after the operation returns the logical size equals the
product of the shape's dimensions and the allocated capacity is at least the
logical size. -/
theorem C1_mutators_preserve_size_and_capacity_invariants
    (sv other : StorageView) (S : List Nat) (d k n addr p : Nat)
    (t : DataType) (ext fresh : List Int) (hwf : wf sv) :
    wf (sv.resize S addr fresh).1 ∧
    wf (sv.resizeDim d k addr fresh).1 ∧
    wf (sv.grow d k addr fresh).1 ∧
    wf (sv.shrink d k addr fresh).1 ∧
    wfOpt (sv.reshape S) ∧
    wf sv.clear ∧
    wf sv.release.1 ∧
    wf (sv.reserve n addr fresh).1 ∧
    wfOptE (sv.assignPtr t p ext S) ∧
    wf (sv.copyAssign other addr fresh).1 := by
  refine ⟨wf_resize .., wf_resize .., wf_resize .., wf_resize .., ?_,
          wf_clear .., wf_release .., wf_reserve _ _ _ _ hwf, ?_, wf_copyAssign ..⟩
  · cases hre : sv.reshape S with
    | none => trivial
    | some sv2 => exact wf_reshape sv sv2 S hwf hre
  · cases ha : sv.assignPtr t p ext S with
    | none => trivial
    | some r => exact wf_assignPtr sv r.1 t p ext S r.2 ha

/-- Witness for C1 at concrete inputs. -/
theorem C1_witness :
    wf ({ _buf := [1, 2], _allocated_size := 2, _size := 2, _shape := [2],
          _strides := [1] } : StorageView) ∧
    (wf (({ _buf := [1, 2], _allocated_size := 2, _size := 2, _shape := [2],
            _strides := [1] } : StorageView).resize [2, 3] 7 []).1 ∧
     wf (({ _buf := [1, 2], _allocated_size := 2, _size := 2, _shape := [2],
            _strides := [1] } : StorageView).resizeDim 0 1 7 []).1 ∧
     wf (({ _buf := [1, 2], _allocated_size := 2, _size := 2, _shape := [2],
            _strides := [1] } : StorageView).grow 0 1 7 []).1 ∧
     wf (({ _buf := [1, 2], _allocated_size := 2, _size := 2, _shape := [2],
            _strides := [1] } : StorageView).shrink 0 1 7 []).1 ∧
     wfOpt (({ _buf := [1, 2], _allocated_size := 2, _size := 2, _shape := [2],
               _strides := [1] } : StorageView).reshape [2, 3]) ∧
     wf ({ _buf := [1, 2], _allocated_size := 2, _size := 2, _shape := [2],
           _strides := [1] } : StorageView).clear ∧
     wf ({ _buf := [1, 2], _allocated_size := 2, _size := 2, _shape := [2],
           _strides := [1] } : StorageView).release.1 ∧
     wf (({ _buf := [1, 2], _allocated_size := 2, _size := 2, _shape := [2],
            _strides := [1] } : StorageView).reserve 4 7 []).1 ∧
     wfOptE (({ _buf := [1, 2], _allocated_size := 2, _size := 2, _shape := [2],
                _strides := [1] } : StorageView).assignPtr DataType.DT_FLOAT 5
                [3, 4, 5, 6, 7, 8] [2, 3]) ∧
     wf (({ _buf := [1, 2], _allocated_size := 2, _size := 2, _shape := [2],
            _strides := [1] } : StorageView).copyAssign {} 7 []).1) :=
  ⟨by decide,
   C1_mutators_preserve_size_and_capacity_invariants
     { _buf := [1, 2], _allocated_size := 2, _size := 2, _shape := [2],
       _strides := [1] } {} [2, 3] 0 1 4 7 5 DataType.DT_FLOAT
     [3, 4, 5, 6, 7, 8] [] (by decide)⟩

end ctranslate2

namespace ctranslate2

lemma stridesOf_getD (S : List Nat) (i : Nat) (h : i < S.length) :
    (stridesOf S).getD i 0 = strideOfShape S i := by
  unfold stridesOf
  rw [List.getD_eq_getElem _ _ (by simpa using h)]
  simp

lemma writeN_length (b s : List Int) (n : Nat) : (writeN b s n).length = b.length := by
  simp [writeN]

lemma writeN_getD (b s : List Int) (n k : Nat) :
    (writeN b s n).getD k 0 =
      if k < b.length then (if k < n then s.getD k 0 else b.getD k 0) else 0 := by
  by_cases h : k < b.length
  · rw [List.getD_eq_getElem _ _ (by simpa [writeN] using h)]
    simp [writeN, h]
  · rw [List.getD_eq_default _ _ (by simpa [writeN] using Nat.le_of_not_lt h)]
    simp [h]

open StorageView

/-- C2: reshape round-trip. For a StorageView of logical size `n` and shapes
`S1`, `S2` whose products are both `n`, `reshape(S1); reshape(S2)` succeeds,
leaves the element value at every flat offset `k < n` unchanged, and afterwards
the shape is `S2` and `stride(i)` is the row-major stride
`product(S2[i+1..end])`; a reshape to a shape whose product differs from the
logical size is rejected. -/
theorem C2_reshape_round_trip (sv : StorageView) (S1 S2 Sb : List Nat)
    (h1 : shapeSize S1 = sv._size) (h2 : shapeSize S2 = sv._size)
    (hb : shapeSize Sb ≠ sv._size) :
    (∃ sv2, (sv.reshape S1).bind (fun x => x.reshape S2) = some sv2 ∧
      (∀ k, k < sv._size → sv2.atFlat k = sv.atFlat k) ∧
      sv2._shape = S2 ∧
      sv2._strides = stridesOf S2 ∧
      (∀ i, i < S2.length →
        sv2.strideAt (i : Int) = (S2.drop (i + 1)).foldl (· * ·) 1)) ∧
    sv.reshape Sb = none := by
  constructor
  · refine ⟨{ sv with _shape := S2, _strides := stridesOf S2 }, ?_, ?_, rfl, rfl, ?_⟩
    · simp [reshape, h1, h2]
    · intro k _
      simp [atFlat]
    · intro i hi
      unfold strideAt
      simp only [Int.not_ofNat_neg, if_false]
      rw [Int.toNat_natCast]
      exact stridesOf_getD S2 i hi
  · simp [reshape, hb]

/-- Witness for C2 at concrete inputs: a buffer of 6 values reshaped to
`[2,3]` then `[3,2]`, and a rejected reshape to `[4]`. -/
theorem C2_witness :
    (shapeSize [2, 3] =
       ({ _buf := [10, 11, 12, 13, 14, 15], _allocated_size := 6, _size := 6,
          _shape := [6], _strides := [1] } : StorageView)._size ∧
     shapeSize [3, 2] =
       ({ _buf := [10, 11, 12, 13, 14, 15], _allocated_size := 6, _size := 6,
          _shape := [6], _strides := [1] } : StorageView)._size ∧
     shapeSize [4] ≠
       ({ _buf := [10, 11, 12, 13, 14, 15], _allocated_size := 6, _size := 6,
          _shape := [6], _strides := [1] } : StorageView)._size) ∧
    ((∃ sv2,
       (({ _buf := [10, 11, 12, 13, 14, 15], _allocated_size := 6, _size := 6,
           _shape := [6], _strides := [1] } : StorageView).reshape
             [2, 3]).bind (fun x => x.reshape [3, 2]) = some sv2 ∧
       (∀ k, k < ({ _buf := [10, 11, 12, 13, 14, 15], _allocated_size := 6,
                    _size := 6, _shape := [6],
                    _strides := [1] } : StorageView)._size →
         sv2.atFlat k =
           ({ _buf := [10, 11, 12, 13, 14, 15], _allocated_size := 6, _size := 6,
              _shape := [6], _strides := [1] } : StorageView).atFlat k) ∧
       sv2._shape = [3, 2] ∧
       sv2._strides = stridesOf [3, 2] ∧
       (∀ i, i < List.length [3, 2] →
         sv2.strideAt (i : Int) = (List.drop (i + 1) [3, 2]).foldl (· * ·) 1)) ∧
     ({ _buf := [10, 11, 12, 13, 14, 15], _allocated_size := 6, _size := 6,
        _shape := [6], _strides := [1] } : StorageView).reshape [4] = none) :=
  ⟨⟨by decide, by decide, by decide⟩,
   C2_reshape_round_trip
     { _buf := [10, 11, 12, 13, 14, 15], _allocated_size := 6, _size := 6,
       _shape := [6], _strides := [1] } [2, 3] [3, 2] [4]
     (by decide) (by decide) (by decide)⟩

end ctranslate2

namespace ctranslate2

open StorageView

/-- C3: `copy_from(raw_pointer, count, source_device)` with `count` different
from the destination's logical size is rejected, and with `count` equal to the
logical size it copies exactly `count` elements into the buffer (the first
`count` positions take the source's values, later positions are untouched). -/
theorem C3_copy_from_count_check (sv : StorageView) (src : List Int)
    (cnt : Nat) (dev : Device) (t : DataType)
    (ht : t = sv._dtype) (hlen : sv._size ≤ sv._buf.length) :
    (cnt ≠ sv._size → sv.copy_from t src cnt dev = none) ∧
    (cnt = sv._size → ∃ sv2 route,
      sv.copy_from t src cnt dev = some (sv2, route) ∧
      (∀ k, k < cnt → sv2.atFlat k = src.getD k 0) ∧
      (∀ k, cnt ≤ k → sv2.atFlat k = sv.atFlat k)) := by
  constructor
  · intro hne
    simp [copy_from, hne]
  · intro he
    refine ⟨{ sv with _buf := writeN sv._buf src cnt },
            if dev ≠ sv._device then
              (if dev = Device.CUDA then CopyRoute.crossDevice Device.CUDA Device.CPU
               else CopyRoute.crossDevice Device.CPU Device.CUDA)
            else CopyRoute.sameDevice dev, ?_, ?_, ?_⟩
    · simp [copy_from, ht, he]
    · intro k hk
      have hkb : k < sv._buf.length := by omega
      show (writeN sv._buf src cnt).getD k 0 = src.getD k 0
      rw [writeN_getD]
      simp [hkb, hk]
    · intro k hk
      show (writeN sv._buf src cnt).getD k 0 = sv._buf.getD k 0
      rw [writeN_getD]
      by_cases hkb : k < sv._buf.length
      · simp [hkb, Nat.not_lt.mpr hk]
      · rw [if_neg hkb, List.getD_eq_default _ _ (Nat.le_of_not_lt hkb)]

/-- Witness for C3: destination of logical size 4; a source count of 3 is
rejected and a source count of 4 is copied. -/
theorem C3_witness :
    (DataType.DT_FLOAT =
       ({ _buf := [0, 0, 0, 0], _allocated_size := 4, _size := 4, _shape := [4],
          _strides := [1] } : StorageView)._dtype ∧
     ({ _buf := [0, 0, 0, 0], _allocated_size := 4, _size := 4, _shape := [4],
        _strides := [1] } : StorageView)._size ≤
       ({ _buf := [0, 0, 0, 0], _allocated_size := 4, _size := 4, _shape := [4],
          _strides := [1] } : StorageView)._buf.length) ∧
    ((3 ≠ ({ _buf := [0, 0, 0, 0], _allocated_size := 4, _size := 4,
             _shape := [4], _strides := [1] } : StorageView)._size →
        ({ _buf := [0, 0, 0, 0], _allocated_size := 4, _size := 4, _shape := [4],
           _strides := [1] } : StorageView).copy_from DataType.DT_FLOAT
            [7, 8, 9] 3 Device.CPU = none) ∧
     (3 = ({ _buf := [0, 0, 0, 0], _allocated_size := 4, _size := 4,
             _shape := [4], _strides := [1] } : StorageView)._size → ∃ sv2 route,
        ({ _buf := [0, 0, 0, 0], _allocated_size := 4, _size := 4, _shape := [4],
           _strides := [1] } : StorageView).copy_from DataType.DT_FLOAT
            [7, 8, 9] 3 Device.CPU = some (sv2, route) ∧
        (∀ k, k < 3 → sv2.atFlat k = List.getD [7, 8, 9] k 0) ∧
        (∀ k, 3 ≤ k → sv2.atFlat k =
          ({ _buf := [0, 0, 0, 0], _allocated_size := 4, _size := 4,
             _shape := [4], _strides := [1] } : StorageView).atFlat k))) :=
  ⟨⟨by decide, by decide⟩,
   C3_copy_from_count_check
     { _buf := [0, 0, 0, 0], _allocated_size := 4, _size := 4, _shape := [4],
       _strides := [1] } [7, 8, 9] 3 Device.CPU DataType.DT_FLOAT
     (by decide) (by decide)⟩

/-- C4: a `copy_from(raw_pointer, count, source_device)` call whose source
device differs from the StorageView's device routes through the cross-device
copy path (`cross_device_primitives<CUDA,CPU>` when the source is CUDA,
`cross_device_primitives<CPU,CUDA>` otherwise), and a call whose source device
equals the StorageView's device routes through the same-device copy path of
that device. -/
theorem C4_copy_from_device_routing (sv sv2 : StorageView) (src : List Int)
    (cnt : Nat) (dev : Device) (t : DataType) (route : CopyRoute)
    (h : sv.copy_from t src cnt dev = some (sv2, route)) :
    (dev ≠ sv._device →
       route = if dev = Device.CUDA then CopyRoute.crossDevice Device.CUDA Device.CPU
               else CopyRoute.crossDevice Device.CPU Device.CUDA) ∧
    (dev = sv._device → route = CopyRoute.sameDevice sv._device) := by
  unfold copy_from at h
  split at h
  · simp only [Option.some.injEq, Prod.mk.injEq] at h
    constructor
    · intro hne
      rw [← h.2]
      simp [hne]
    · intro heq
      rw [← h.2]
      simp [heq]
  · cases h

/-- Witness for C4: a CUDA-resident destination receiving host data takes the
`cross_device_primitives<CPU,CUDA>` path. -/
theorem C4_witness :
    ({ _device := Device.CUDA, _buf := [0, 0], _allocated_size := 2, _size := 2,
       _shape := [2], _strides := [1] } : StorageView).copy_from
        DataType.DT_FLOAT [5, 6] 2 Device.CPU =
      some ({ _device := Device.CUDA, _buf := [5, 6], _allocated_size := 2,
              _size := 2, _shape := [2], _strides := [1] },
            CopyRoute.crossDevice Device.CPU Device.CUDA) ∧
    ((Device.CPU ≠ ({ _device := Device.CUDA, _buf := [0, 0],
                      _allocated_size := 2, _size := 2, _shape := [2],
                      _strides := [1] } : StorageView)._device →
        CopyRoute.crossDevice Device.CPU Device.CUDA =
          if Device.CPU = Device.CUDA then
            CopyRoute.crossDevice Device.CUDA Device.CPU
          else CopyRoute.crossDevice Device.CPU Device.CUDA) ∧
     (Device.CPU = ({ _device := Device.CUDA, _buf := [0, 0],
                      _allocated_size := 2, _size := 2, _shape := [2],
                      _strides := [1] } : StorageView)._device →
        CopyRoute.crossDevice Device.CPU Device.CUDA =
          CopyRoute.sameDevice
            ({ _device := Device.CUDA, _buf := [0, 0], _allocated_size := 2,
               _size := 2, _shape := [2],
               _strides := [1] } : StorageView)._device)) :=
  ⟨by decide,
   C4_copy_from_device_routing
     { _device := Device.CUDA, _buf := [0, 0], _allocated_size := 2, _size := 2,
       _shape := [2], _strides := [1] }
     { _device := Device.CUDA, _buf := [5, 6], _allocated_size := 2, _size := 2,
       _shape := [2], _strides := [1] } [5, 6] 2 Device.CPU DataType.DT_FLOAT
     (CopyRoute.crossDevice Device.CPU Device.CUDA) (by decide)⟩

end ctranslate2

namespace ctranslate2

open StorageView

/-- C5: `assign(raw_pointer, shape)` releases any previously owned buffer,
makes the object a non-owning borrower of the external pointer with no element
copy, sets capacity and logical size to `product(shape)`, and applies the
shape; afterwards neither `release()` nor the destructor frees the external
buffer. -/
theorem C5_assign_borrows_external_buffer (sv : StorageView) (t : DataType)
    (p : Nat) (ext : List Int) (S : List Nat) (ht : t = sv._dtype) :
    ∃ sv2 eff, sv.assignPtr t p ext S = some (sv2, eff) ∧
      eff = (if sv._own_data ∧ sv._data ≠ 0 then [Effect.free sv._data] else []) ∧
      sv2._own_data = false ∧
      sv2._data = p ∧
      sv2._buf = ext ∧
      sv2._allocated_size = shapeSize S ∧
      sv2._size = shapeSize S ∧
      sv2._shape = S ∧
      sv2.release.2 = [] ∧
      sv2.destroy = [] := by
  refine ⟨{ _dtype := sv._dtype, _device := sv._device, _data := p, _buf := ext,
            _own_data := false, _allocated_size := shapeSize S,
            _size := shapeSize S, _shape := S, _strides := stridesOf S },
          (if sv._own_data ∧ sv._data ≠ 0 then [Effect.free sv._data] else []),
          ?_, rfl, rfl, rfl, rfl, rfl, rfl, rfl, ?_, ?_⟩
  · simp [assignPtr, release, reshape, ht]
  · simp [release]
  · simp [destroy]

/-- Witness for C5: an owning StorageView takes over an external buffer of 6
values with shape `[2,3]`; the old owned buffer (address 3) is freed, and
afterwards release and the destructor free nothing. -/
theorem C5_witness :
    (DataType.DT_FLOAT =
       ({ _data := 3, _buf := [9, 9], _own_data := true, _allocated_size := 2,
          _size := 2, _shape := [2], _strides := [1] } : StorageView)._dtype) ∧
    (∃ sv2 eff,
      ({ _data := 3, _buf := [9, 9], _own_data := true, _allocated_size := 2,
         _size := 2, _shape := [2],
         _strides := [1] } : StorageView).assignPtr DataType.DT_FLOAT 5
          [1, 2, 3, 4, 5, 6] [2, 3] = some (sv2, eff) ∧
      eff = (if ({ _data := 3, _buf := [9, 9], _own_data := true,
                   _allocated_size := 2, _size := 2, _shape := [2],
                   _strides := [1] } : StorageView)._own_data ∧
               ({ _data := 3, _buf := [9, 9], _own_data := true,
                  _allocated_size := 2, _size := 2, _shape := [2],
                  _strides := [1] } : StorageView)._data ≠ 0 then
               [Effect.free ({ _data := 3, _buf := [9, 9], _own_data := true,
                               _allocated_size := 2, _size := 2, _shape := [2],
                               _strides := [1] } : StorageView)._data]
             else []) ∧
      sv2._own_data = false ∧
      sv2._data = 5 ∧
      sv2._buf = [1, 2, 3, 4, 5, 6] ∧
      sv2._allocated_size = shapeSize [2, 3] ∧
      sv2._size = shapeSize [2, 3] ∧
      sv2._shape = [2, 3] ∧
      sv2.release.2 = [] ∧
      sv2.destroy = []) :=
  ⟨by decide,
   C5_assign_borrows_external_buffer
     { _data := 3, _buf := [9, 9], _own_data := true, _allocated_size := 2,
       _size := 2, _shape := [2], _strides := [1] } DataType.DT_FLOAT 5
     [1, 2, 3, 4, 5, 6] [2, 3] (by decide)⟩

end ctranslate2

namespace ctranslate2

lemma prod_set_le (l : List Nat) (d v : Nat) (hv : v ≤ l.getD d 0) :
    (l.set d v).prod ≤ l.prod := by
  induction l generalizing d with
  | nil => simp
  | cons a t ih =>
    cases d with
    | zero =>
      simp only [List.set, List.prod_cons]
      exact Nat.mul_le_mul (by simpa using hv) (Nat.le_refl _)
    | succ d =>
      simp only [List.set, List.prod_cons]
      exact Nat.mul_le_mul (Nat.le_refl _) (ih d (by simpa using hv))

lemma shapeSize_set_le (l : List Nat) (d v : Nat) (hv : v ≤ l.getD d 0) :
    shapeSize (l.set d v) ≤ shapeSize l := by
  unfold shapeSize
  cases l with
  | nil => simp
  | cons a t =>
    have h1 : ((a :: t).set d v).isEmpty = false := by
      cases d <;> simp [List.set]
    rw [h1]
    simp only [List.isEmpty_cons, Bool.false_eq_true, if_false]
    rw [← List.prod_eq_foldl, ← List.prod_eq_foldl]
    exact prod_set_le _ _ _ hv

open StorageView

/-- C6: `resize(new_shape)` whose new logical size exceeds capacity frees the
old owned buffer and allocates a new owned one of exactly the new size whose
contents are the fresh (unspecified) allocation, independent of the prior
contents; `resize` whose new logical size fits within capacity keeps the same
buffer address, contents and capacity, performs no allocation, and only
updates shape, strides and size; `shrink(dim, amount)` never reallocates. -/
theorem C6_resize_reallocation_semantics (sv : StorageView) (S : List Nat)
    (d k addr : Nat) (fresh : List Int) (hwf : wf sv) :
    (sv._allocated_size < shapeSize S →
       ((sv.resize S addr fresh).1._data = addr ∧
        (sv.resize S addr fresh).1._own_data = true ∧
        (sv.resize S addr fresh).1._allocated_size = shapeSize S ∧
        (sv.resize S addr fresh).1._buf = mkBuf (shapeSize S) fresh ∧
        (sv.resize S addr fresh).2 =
          (if sv._own_data ∧ sv._data ≠ 0 then [Effect.free sv._data] else [])
            ++ [Effect.alloc addr (shapeSize S)])) ∧
    (shapeSize S ≤ sv._allocated_size →
       ((sv.resize S addr fresh).1._data = sv._data ∧
        (sv.resize S addr fresh).1._buf = sv._buf ∧
        (sv.resize S addr fresh).1._allocated_size = sv._allocated_size ∧
        (sv.resize S addr fresh).2 = [] ∧
        (sv.resize S addr fresh).1._shape = S ∧
        (sv.resize S addr fresh).1._strides = stridesOf S ∧
        (sv.resize S addr fresh).1._size = shapeSize S)) ∧
    ((sv.shrink d k addr fresh).2 = [] ∧
     (sv.shrink d k addr fresh).1._data = sv._data ∧
     (sv.shrink d k addr fresh).1._buf = sv._buf) := by
  refine ⟨?_, ?_, ?_⟩
  · intro h
    simp [resize, reserve, h, Nat.not_le.mpr h]
  · intro h
    simp [resize, reserve, Nat.not_lt.mpr h]
  · have hn : shapeSize (sv._shape.set d (sv._shape[d]?.getD 0 - k)) ≤
        sv._allocated_size :=
      le_trans (le_trans
        (shapeSize_set_le _ _ _
          (by simp [List.getD]))
        (le_of_eq hwf.1.symm)) hwf.2
    simp [shrink, resizeDim, resize, reserve, Nat.not_lt.mpr hn]

/-- Witness for C6: a buffer of capacity 4 resized to shape `[2,3]` (logical
size 6) reallocates; `shrink(0, 1)` performs no allocation or free. -/
theorem C6_witness :
    wf ({ _data := 3, _buf := [1, 2, 0, 0], _allocated_size := 4, _size := 2,
          _shape := [2], _strides := [1] } : StorageView) ∧
    ((({ _data := 3, _buf := [1, 2, 0, 0], _allocated_size := 4, _size := 2,
         _shape := [2], _strides := [1] } : StorageView)._allocated_size <
        shapeSize [2, 3] →
       ((({ _data := 3, _buf := [1, 2, 0, 0], _allocated_size := 4, _size := 2,
            _shape := [2], _strides := [1] } : StorageView).resize [2, 3] 7
              [5, 5, 5, 5, 5, 5]).1._data = 7 ∧
        (({ _data := 3, _buf := [1, 2, 0, 0], _allocated_size := 4, _size := 2,
            _shape := [2], _strides := [1] } : StorageView).resize [2, 3] 7
              [5, 5, 5, 5, 5, 5]).1._own_data = true ∧
        (({ _data := 3, _buf := [1, 2, 0, 0], _allocated_size := 4, _size := 2,
            _shape := [2], _strides := [1] } : StorageView).resize [2, 3] 7
              [5, 5, 5, 5, 5, 5]).1._allocated_size = shapeSize [2, 3] ∧
        (({ _data := 3, _buf := [1, 2, 0, 0], _allocated_size := 4, _size := 2,
            _shape := [2], _strides := [1] } : StorageView).resize [2, 3] 7
              [5, 5, 5, 5, 5, 5]).1._buf =
          mkBuf (shapeSize [2, 3]) [5, 5, 5, 5, 5, 5] ∧
        (({ _data := 3, _buf := [1, 2, 0, 0], _allocated_size := 4, _size := 2,
            _shape := [2], _strides := [1] } : StorageView).resize [2, 3] 7
              [5, 5, 5, 5, 5, 5]).2 =
          (if ({ _data := 3, _buf := [1, 2, 0, 0], _allocated_size := 4,
                 _size := 2, _shape := [2],
                 _strides := [1] } : StorageView)._own_data ∧
              ({ _data := 3, _buf := [1, 2, 0, 0], _allocated_size := 4,
                 _size := 2, _shape := [2],
                 _strides := [1] } : StorageView)._data ≠ 0 then
             [Effect.free ({ _data := 3, _buf := [1, 2, 0, 0],
                             _allocated_size := 4, _size := 2, _shape := [2],
                             _strides := [1] } : StorageView)._data]
           else []) ++ [Effect.alloc 7 (shapeSize [2, 3])])) ∧
     (shapeSize [2, 3] ≤
        ({ _data := 3, _buf := [1, 2, 0, 0], _allocated_size := 4, _size := 2,
           _shape := [2], _strides := [1] } : StorageView)._allocated_size →
       ((({ _data := 3, _buf := [1, 2, 0, 0], _allocated_size := 4, _size := 2,
            _shape := [2], _strides := [1] } : StorageView).resize [2, 3] 7
              [5, 5, 5, 5, 5, 5]).1._data = 3 ∧
        (({ _data := 3, _buf := [1, 2, 0, 0], _allocated_size := 4, _size := 2,
            _shape := [2], _strides := [1] } : StorageView).resize [2, 3] 7
              [5, 5, 5, 5, 5, 5]).1._buf = [1, 2, 0, 0] ∧
        (({ _data := 3, _buf := [1, 2, 0, 0], _allocated_size := 4, _size := 2,
            _shape := [2], _strides := [1] } : StorageView).resize [2, 3] 7
              [5, 5, 5, 5, 5, 5]).1._allocated_size = 4 ∧
        (({ _data := 3, _buf := [1, 2, 0, 0], _allocated_size := 4, _size := 2,
            _shape := [2], _strides := [1] } : StorageView).resize [2, 3] 7
              [5, 5, 5, 5, 5, 5]).2 = [] ∧
        (({ _data := 3, _buf := [1, 2, 0, 0], _allocated_size := 4, _size := 2,
            _shape := [2], _strides := [1] } : StorageView).resize [2, 3] 7
              [5, 5, 5, 5, 5, 5]).1._shape = [2, 3] ∧
        (({ _data := 3, _buf := [1, 2, 0, 0], _allocated_size := 4, _size := 2,
            _shape := [2], _strides := [1] } : StorageView).resize [2, 3] 7
              [5, 5, 5, 5, 5, 5]).1._strides = stridesOf [2, 3] ∧
        (({ _data := 3, _buf := [1, 2, 0, 0], _allocated_size := 4, _size := 2,
            _shape := [2], _strides := [1] } : StorageView).resize [2, 3] 7
              [5, 5, 5, 5, 5, 5]).1._size = shapeSize [2, 3])) ∧
     ((({ _data := 3, _buf := [1, 2, 0, 0], _allocated_size := 4, _size := 2,
          _shape := [2], _strides := [1] } : StorageView).shrink 0 1 7
            [5, 5, 5, 5, 5, 5]).2 = [] ∧
      (({ _data := 3, _buf := [1, 2, 0, 0], _allocated_size := 4, _size := 2,
          _shape := [2], _strides := [1] } : StorageView).shrink 0 1 7
            [5, 5, 5, 5, 5, 5]).1._data = 3 ∧
      (({ _data := 3, _buf := [1, 2, 0, 0], _allocated_size := 4, _size := 2,
          _shape := [2], _strides := [1] } : StorageView).shrink 0 1 7
            [5, 5, 5, 5, 5, 5]).1._buf = [1, 2, 0, 0])) :=
  ⟨by decide,
   C6_resize_reallocation_semantics
     { _data := 3, _buf := [1, 2, 0, 0], _allocated_size := 4, _size := 2,
       _shape := [2], _strides := [1] } [2, 3] 0 1 7 [5, 5, 5, 5, 5, 5]
     (by decide)⟩

end ctranslate2

namespace ctranslate2

open StorageView

lemma foldl_add_shift (l : List Nat) (f : Nat → Nat) (c : Nat) :
    l.foldl (fun a i => a + f i) c = c + (l.map f).sum := by
  induction l generalizing c with
  | nil => simp
  | cons x t ih => simp [ih, Nat.add_assoc]

lemma indexOffset_eq_sum (strides indices : List Nat)
    (h : indices.length ≤ strides.length) :
    StorageView.indexOffset strides indices =
      (List.zipWith (· * ·) indices strides).sum := by
  unfold StorageView.indexOffset
  rw [foldl_add_shift]
  rw [Nat.zero_add]
  congr 1
  apply List.ext_getElem
  · simp [Nat.min_eq_left h]
  · intro i h1 h2
    simp only [List.getElem_map, List.getElem_range, List.getElem_zipWith]
    have hi : i < indices.length := by simpa using h1
    rw [List.getD_eq_getElem _ _ hi,
        List.getD_eq_getElem _ _ (Nat.lt_of_lt_of_le hi h)]

open StorageView

/-- C7: `index<T>(indices)` computes the flat element offset as
`sum(indices[i] * strides[i])` and returns the pointer to (hence the element
at) that flat offset, under the preconditions that the type tag matches and
the computed offset is strictly below the logical size. -/
theorem C7_index_computes_flat_offset (sv : StorageView) (t : DataType)
    (idx : List Nat) (ht : t = sv._dtype)
    (hlen : idx.length ≤ sv._strides.length)
    (hoff : (List.zipWith (· * ·) idx sv._strides).sum < sv._size) :
    sv.indexOp t idx = some ((List.zipWith (· * ·) idx sv._strides).sum) ∧
    sv.atIndices t idx =
      some (sv.atFlat ((List.zipWith (· * ·) idx sv._strides).sum)) := by
  have he := indexOffset_eq_sum sv._strides idx hlen
  have h1 : sv.indexOp t idx = some ((List.zipWith (· * ·) idx sv._strides).sum) := by
    unfold indexOp
    rw [he]
    simp [ht, hoff]
  exact ⟨h1, by unfold atIndices; rw [h1]; rfl⟩

/-- Witness for C7: shape `[2,3]`, strides `[3,1]`, indices `{1,2}` give flat
offset 5. -/
theorem C7_witness :
    (DataType.DT_FLOAT =
       ({ _buf := [10, 11, 12, 13, 14, 15], _allocated_size := 6, _size := 6,
          _shape := [2, 3], _strides := [3, 1] } : StorageView)._dtype ∧
     List.length [1, 2] ≤
       ({ _buf := [10, 11, 12, 13, 14, 15], _allocated_size := 6, _size := 6,
          _shape := [2, 3],
          _strides := [3, 1] } : StorageView)._strides.length ∧
     (List.zipWith (· * ·) [1, 2]
        ({ _buf := [10, 11, 12, 13, 14, 15], _allocated_size := 6, _size := 6,
           _shape := [2, 3], _strides := [3, 1] } : StorageView)._strides).sum <
       ({ _buf := [10, 11, 12, 13, 14, 15], _allocated_size := 6, _size := 6,
          _shape := [2, 3], _strides := [3, 1] } : StorageView)._size) ∧
    (({ _buf := [10, 11, 12, 13, 14, 15], _allocated_size := 6, _size := 6,
        _shape := [2, 3], _strides := [3, 1] } : StorageView).indexOp
         DataType.DT_FLOAT [1, 2] =
       some ((List.zipWith (· * ·) [1, 2]
         ({ _buf := [10, 11, 12, 13, 14, 15], _allocated_size := 6, _size := 6,
            _shape := [2, 3], _strides := [3, 1] } : StorageView)._strides).sum) ∧
     ({ _buf := [10, 11, 12, 13, 14, 15], _allocated_size := 6, _size := 6,
        _shape := [2, 3], _strides := [3, 1] } : StorageView).atIndices
         DataType.DT_FLOAT [1, 2] =
       some (({ _buf := [10, 11, 12, 13, 14, 15], _allocated_size := 6,
                _size := 6, _shape := [2, 3],
                _strides := [3, 1] } : StorageView).atFlat
         ((List.zipWith (· * ·) [1, 2]
            ({ _buf := [10, 11, 12, 13, 14, 15], _allocated_size := 6,
               _size := 6, _shape := [2, 3],
               _strides := [3, 1] } : StorageView)._strides).sum))) :=
  ⟨⟨by decide, by decide, by decide⟩,
   C7_index_computes_flat_offset
     { _buf := [10, 11, 12, 13, 14, 15], _allocated_size := 6, _size := 6,
       _shape := [2, 3], _strides := [3, 1] } DataType.DT_FLOAT [1, 2]
     (by decide) (by decide) (by decide)⟩

/-- C8: the typed access operations `data<T>`, `index<T>`, `fill`,
`copy_from(T*, size, device)` and `assign(T*, shape)` all check the
caller-supplied type tag against `_dtype`: a mismatched tag is rejected, while
`data<T>` with the matching tag returns the raw buffer pointer. -/
theorem C8_type_tag_checked_on_typed_access (sv : StorageView) (t : DataType)
    (idx : List Nat) (v : Int) (src ext : List Int) (cnt p : Nat)
    (dev : Device) (S : List Nat) (hne : t ≠ sv._dtype) :
    sv.dataOp t = none ∧
    sv.indexOp t idx = none ∧
    sv.fill t v = none ∧
    sv.copy_from t src cnt dev = none ∧
    sv.assignPtr t p ext S = none ∧
    sv.dataOp sv._dtype = some sv._data := by
  refine ⟨?_, ?_, ?_, ?_, ?_, ?_⟩ <;>
    simp [dataOp, indexOp, fill, copy_from, assignPtr, hne]

/-- Witness for C8: an `int32` access on a float StorageView is rejected. -/
theorem C8_witness :
    (DataType.DT_INT32 ≠
       ({ _buf := [1, 2], _allocated_size := 2, _size := 2, _shape := [2],
          _strides := [1] } : StorageView)._dtype) ∧
    (({ _buf := [1, 2], _allocated_size := 2, _size := 2, _shape := [2],
        _strides := [1] } : StorageView).dataOp DataType.DT_INT32 = none ∧
     ({ _buf := [1, 2], _allocated_size := 2, _size := 2, _shape := [2],
        _strides := [1] } : StorageView).indexOp DataType.DT_INT32 [0] = none ∧
     ({ _buf := [1, 2], _allocated_size := 2, _size := 2, _shape := [2],
        _strides := [1] } : StorageView).fill DataType.DT_INT32 9 = none ∧
     ({ _buf := [1, 2], _allocated_size := 2, _size := 2, _shape := [2],
        _strides := [1] } : StorageView).copy_from DataType.DT_INT32 [3, 4] 2
         Device.CPU = none ∧
     ({ _buf := [1, 2], _allocated_size := 2, _size := 2, _shape := [2],
        _strides := [1] } : StorageView).assignPtr DataType.DT_INT32 5 [3, 4]
         [2] = none ∧
     ({ _buf := [1, 2], _allocated_size := 2, _size := 2, _shape := [2],
        _strides := [1] } : StorageView).dataOp
         ({ _buf := [1, 2], _allocated_size := 2, _size := 2, _shape := [2],
            _strides := [1] } : StorageView)._dtype =
       some ({ _buf := [1, 2], _allocated_size := 2, _size := 2, _shape := [2],
               _strides := [1] } : StorageView)._data) :=
  ⟨by decide,
   C8_type_tag_checked_on_typed_access
     { _buf := [1, 2], _allocated_size := 2, _size := 2, _shape := [2],
       _strides := [1] } DataType.DT_INT32 [0] 9 [3, 4] [3, 4] 2 5 Device.CPU
     [2] (by decide)⟩

end ctranslate2

namespace ctranslate2

open StorageView

lemma resize_size (sv : StorageView) (S : List Nat) (addr : Nat)
    (fresh : List Int) : (sv.resize S addr fresh).1._size = shapeSize S := rfl

lemma resize_dtype (sv : StorageView) (S : List Nat) (addr : Nat)
    (fresh : List Int) : (sv.resize S addr fresh).1._dtype = sv._dtype := by
  unfold resize reserve
  dsimp only
  split
  · split <;> rfl
  · rfl

lemma resize_device (sv : StorageView) (S : List Nat) (addr : Nat)
    (fresh : List Int) : (sv.resize S addr fresh).1._device = sv._device := by
  unfold resize reserve
  dsimp only
  split
  · split <;> rfl
  · rfl

lemma copy_from_route (sv : StorageView) (t : DataType) (src : List Int)
    (cnt : Nat) (dev : Device) (ht : t = sv._dtype) (hc : cnt = sv._size) :
    (sv.copy_from t src cnt dev).map Prod.snd =
      some (if dev ≠ sv._device then
              (if dev = Device.CUDA then
                 CopyRoute.crossDevice Device.CUDA Device.CPU
               else CopyRoute.crossDevice Device.CPU Device.CUDA)
            else CopyRoute.sameDevice dev) := by
  simp [StorageView.copy_from, ht, hc]

/-- A concrete shape-`[2,3]` float StorageView holding the values 10..15,
used as an example input. -/
def svEx : StorageView :=
  { _buf := [10, 11, 12, 13, 14, 15], _allocated_size := 6, _size := 6,
    _shape := [2, 3], _strides := [3, 1] }

/-- C9: the bounds check of `index<T>`/`at<T>(indices)` applies only to the
computed flat offset, never per dimension: any index vector whose flat offset
is below the logical size is accepted; concretely, on shape `[2,3]` the
indices `{0,5}` (with `5 >= dim(1) = 3`) and `{1,2}` are both accepted and
address the same element. -/
theorem C9_bounds_check_is_flat_only (sv : StorageView) (t : DataType)
    (idx : List Nat) (ht : t = sv._dtype)
    (hoff : indexOffset sv._strides idx < sv._size) :
    (sv.indexOp t idx).isSome = true ∧
    svEx.indexOp DataType.DT_FLOAT [0, 5] = some 5 ∧
    svEx.indexOp DataType.DT_FLOAT [1, 2] = some 5 ∧
    svEx.atIndices DataType.DT_FLOAT [0, 5] =
      svEx.atIndices DataType.DT_FLOAT [1, 2] ∧
    svEx.dimAt 1 ≤ 5 := by
  refine ⟨?_, by decide, by decide, by decide, by decide⟩
  unfold indexOp
  simp [ht, hoff]

/-- Witness for C9: indices `{0,5}` on the `[2,3]` example have flat offset
`0*3 + 5*1 = 5 < 6` and are accepted even though `5` exceeds `dim(1)`. -/
theorem C9_witness :
    (DataType.DT_FLOAT = svEx._dtype ∧
     indexOffset svEx._strides [0, 5] < svEx._size) ∧
    ((svEx.indexOp DataType.DT_FLOAT [0, 5]).isSome = true ∧
     svEx.indexOp DataType.DT_FLOAT [0, 5] = some 5 ∧
     svEx.indexOp DataType.DT_FLOAT [1, 2] = some 5 ∧
     svEx.atIndices DataType.DT_FLOAT [0, 5] =
       svEx.atIndices DataType.DT_FLOAT [1, 2] ∧
     svEx.dimAt 1 ≤ 5) :=
  ⟨⟨by decide, by decide⟩,
   C9_bounds_check_is_flat_only svEx DataType.DT_FLOAT [0, 5] (by decide)
     (by decide)⟩

/-- C10: the shaped-from-`std::vector` constructor always passes `Device::CPU`
as the source device of its `copy_from`, so a StorageView constructed on CUDA
from a vector takes the `cross_device_primitives<CPU,CUDA>` path while one
constructed on CPU takes the same-device path. -/
theorem C10_vector_constructor_copies_from_cpu (S : List Nat) (init : List Int)
    (t : DataType) (dev : Device) (addr : Nat) (fresh : List Int)
    (hcnt : init.length = shapeSize S) :
    (fromVector S init t dev addr fresh).map Prod.snd =
      some (if dev = Device.CPU then CopyRoute.sameDevice Device.CPU
            else CopyRoute.crossDevice Device.CPU Device.CUDA) := by
  unfold fromVector
  dsimp only
  rw [copy_from_route _ _ init init.length Device.CPU
        (resize_dtype _ S addr fresh).symm
        (hcnt.trans (resize_size _ S addr fresh).symm),
      resize_device]
  cases dev <;> simp

/-- Witness for C10: constructing a CUDA StorageView of shape `[2]` from a
2-element vector routes through `cross_device_primitives<CPU,CUDA>`. -/
theorem C10_witness :
    List.length [(1 : Int), 2] = shapeSize [2] ∧
    (fromVector [2] [1, 2] DataType.DT_FLOAT Device.CUDA 7 []).map Prod.snd =
      some (if Device.CUDA = Device.CPU then CopyRoute.sameDevice Device.CPU
            else CopyRoute.crossDevice Device.CPU Device.CUDA) :=
  ⟨by decide,
   C10_vector_constructor_copies_from_cpu [2] [1, 2] DataType.DT_FLOAT
     Device.CUDA 7 [] (by decide)⟩

end ctranslate2
